import Mathlib

/-!
# Cluster alias directory (go/inst/cluster_alias_dao.go)

A shallow embedding of the data-access functions of `cluster_alias_dao.go`.

* The relational store is a record of four tables; a table is the list of its
  rows in the order a scan delivers them.
* Every SQL statement of the file is a function on the store. `now()` and the
  outcome of the call to the backend (an error raised by the backend before the
  statement takes effect, or none) are explicit arguments (`Call`).
* A Go `error` is `Option Error`, `nil` being `none`; a Go result pair is a pair.
* SQL expressions over nullable columns use three-valued logic (`SqlBool`).
* Comparison of strings is equality of values (collations are not modelled).
-/

namespace Inst

/-! ## Data model -/

/-- A Go error value, identified by its message. -/
abbrev Error := String

/-- Row of table cluster_alias; column alias is field alias_ (alias is a reserved word). -/
structure ClusterAliasRow where
  cluster_name : String
  alias_ : String
  last_registered : Nat
deriving DecidableEq, Repr

/-- Row of table cluster_alias_override; column alias is field alias_. -/
structure ClusterAliasOverrideRow where
  cluster_name : String
  alias_ : String
deriving DecidableEq, Repr

/-- Row of table database_instance: the columns read by cluster_alias_dao.go. The two
timestamps are nullable, as the source guards their comparison with ifnull. -/
structure DatabaseInstanceRow where
  hostname : String
  port : Nat
  cluster_name : String
  suggested_cluster_alias : String
  read_only : Nat
  num_slave_hosts : Nat
  last_checked : Option Nat
  last_seen : Option Nat
deriving DecidableEq, Repr

/-- Row of table database_instance_downtime: the columns read by cluster_alias_dao.go,
all three nullable. -/
structure DatabaseInstanceDowntimeRow where
  hostname : String
  port : Nat
  downtime_active : Option Nat
  end_timestamp : Option Nat
  reason : Option String
deriving DecidableEq, Repr

/-- The backend database: each table is the list of its rows in scan order. -/
structure Store where
  cluster_alias : List ClusterAliasRow
  cluster_alias_override : List ClusterAliasOverrideRow
  database_instance : List DatabaseInstanceRow
  database_instance_downtime : List DatabaseInstanceDowntimeRow
deriving DecidableEq, Repr

/-- What the backend does with one submitted statement: the value of now() while it runs,
and the error the backend raises instead of running it, if any. -/
structure Call where
  now : Nat
  fault : Option Error
deriving DecidableEq, Repr

/-! ## SQL expressions -/

/-- SQL truth value; none is NULL. -/
abbrev SqlBool := Option Bool

/-- SQL three-valued AND. -/
def sqlAnd : SqlBool → SqlBool → SqlBool
  | some false, _ => some false
  | _, some false => some false
  | some true, some true => some true
  | _, _ => none

/-- SQL `a = b` on a nullable column and a value. -/
def sqlEq {α : Type} [DecidableEq α] (a : Option α) (b : α) : SqlBool :=
  a.map (fun x => decide (x = b))

/-- SQL `a > b` on a nullable number and a value. -/
def sqlGt (a : Option Nat) (b : Nat) : SqlBool :=
  a.map (fun x => decide (b < x))

/-- SQL `a <= b` on two nullable numbers. -/
def sqlLe : Option Nat → Option Nat → SqlBool
  | some x, some y => some (decide (x ≤ y))
  | _, _ => none

/-- SQL `ifnull(v, 0)` on a truth value: the number 1 for true, 0 for false and for NULL. -/
def ifnull0 : SqlBool → Nat
  | some true => 1
  | _ => 0

/-! ## Table operations -/

/-- Modelled from the spec: the schema of cluster_alias is absent from the source; the
spec gives `AliasMap(identity PRIMARY KEY, alias, registeredAt)` with no uniqueness across
aliases. Semantics of `replace into cluster_alias` under that schema: rows that hold the
same primary key (cluster_name) are deleted, then the new row is inserted. -/
def replaceIntoClusterAlias (t : List ClusterAliasRow) (r : ClusterAliasRow) :
    List ClusterAliasRow :=
  t.filter (fun x => decide (x.cluster_name ≠ r.cluster_name)) ++ [r]

/-- Modelled from the spec: the schema of cluster_alias_override is absent from the
source; the spec gives `AliasOverride(identity PRIMARY KEY, alias)`. Semantics of
`replace into cluster_alias_override` under that schema. -/
def replaceIntoClusterAliasOverride (t : List ClusterAliasOverrideRow)
    (r : ClusterAliasOverrideRow) : List ClusterAliasOverrideRow :=
  t.filter (fun x => decide (x.cluster_name ≠ r.cluster_name)) ++ [r]

/-- Rows of cluster_alias after `set cluster_name = ? where cluster_name = ?`. -/
def setClusterName (newClusterName oldClusterName : String) (t : List ClusterAliasRow) :
    List ClusterAliasRow :=
  t.map (fun r =>
    if r.cluster_name = oldClusterName then
      ClusterAliasRow.mk newClusterName r.alias_ r.last_registered
    else r)

/-- Rows of cluster_alias_override after `set cluster_name = ? where cluster_name = ?`. -/
def setOverrideClusterName (newClusterName oldClusterName : String)
    (t : List ClusterAliasOverrideRow) : List ClusterAliasOverrideRow :=
  t.map (fun r =>
    if r.cluster_name = oldClusterName then
      ClusterAliasOverrideRow.mk newClusterName r.alias_
    else r)

/-- The rows of cluster_alias that hold the given cluster_name. -/
def rowsOf (clusterName : String) (t : List ClusterAliasRow) : List ClusterAliasRow :=
  t.filter (fun x => decide (x.cluster_name = clusterName))

/-- The rows of cluster_alias_override that hold the given cluster_name. -/
def overrideRowsOf (clusterName : String) (t : List ClusterAliasOverrideRow) :
    List ClusterAliasOverrideRow :=
  t.filter (fun x => decide (x.cluster_name = clusterName))

/-- The error of an update that would leave two rows with one primary key. -/
def duplicateEntry (key : String) : Error := "Duplicate entry for key PRIMARY: " ++ key

/-- One row of `database_instance left join database_instance_downtime using (hostname, port)`;
the downtime columns are NULL when no downtime row matches. -/
structure JoinedRow where
  inst : DatabaseInstanceRow
  downtime : Option DatabaseInstanceDowntimeRow
deriving DecidableEq, Repr

/-- The rows of a select over joined rows that hold the given cluster_name. -/
def factsOf (clusterName : String) (l : List JoinedRow) : List JoinedRow :=
  l.filter (fun j => decide (j.inst.cluster_name = clusterName))

/-- Column downtime_active of a joined row. -/
def JoinedRow.downtime_active (j : JoinedRow) : Option Nat :=
  j.downtime.bind (fun d => d.downtime_active)

/-- Column end_timestamp of a joined row. -/
def JoinedRow.end_timestamp (j : JoinedRow) : Option Nat :=
  j.downtime.bind (fun d => d.end_timestamp)

/-- Column reason of a joined row. -/
def JoinedRow.reason (j : JoinedRow) : Option String :=
  j.downtime.bind (fun d => d.reason)

/-- Semantics of `database_instance left join database_instance_downtime using (hostname, port)`. -/
def leftJoinDowntime (instances : List DatabaseInstanceRow)
    (downtimes : List DatabaseInstanceDowntimeRow) : List JoinedRow :=
  instances.flatMap (fun i =>
    match downtimes.filter (fun d => decide (d.hostname = i.hostname ∧ d.port = i.port)) with
    | [] => [JoinedRow.mk i none]
    | ds => ds.map (fun d => JoinedRow.mk i (some d)))

/-- The downtime test of the first statement of UpdateClusterAliases:
`downtime_active = 1 and end_timestamp > now() and reason = ?`. -/
def downtimeCondition (reason : String) (now : Nat) (j : JoinedRow) : SqlBool :=
  sqlAnd (sqlAnd (sqlEq j.downtime_active 1) (sqlGt j.end_timestamp now)) (sqlEq j.reason reason)

/-- The where clause of the first statement of UpdateClusterAliases. -/
def whereClause (reason : String) (now : Nat) (j : JoinedRow) : Bool :=
  decide (j.inst.suggested_cluster_alias ≠ "") &&
    decide (ifnull0 (downtimeCondition reason now j) = 0)

/-- First sort key: `ifnull(last_checked <= last_seen, 0)`. -/
def JoinedRow.checkedLeSeen (j : JoinedRow) : Nat :=
  ifnull0 (sqlLe j.inst.last_checked j.inst.last_seen)

/-- The order by clause of the first statement of UpdateClusterAliases: a is delivered no
later than b under `ifnull(last_checked <= last_seen, 0) asc, read_only desc,
num_slave_hosts asc`. -/
def orderBy (a b : JoinedRow) : Prop :=
  a.checkedLeSeen < b.checkedLeSeen ∨
    (a.checkedLeSeen = b.checkedLeSeen ∧
      (b.inst.read_only < a.inst.read_only ∨
        (a.inst.read_only = b.inst.read_only ∧
          a.inst.num_slave_hosts ≤ b.inst.num_slave_hosts)))

instance orderByDecidable : DecidableRel orderBy := fun a b => by
  unfold orderBy
  exact inferInstance

instance orderByTotal : IsTotal JoinedRow orderBy :=
  ⟨fun a b => by unfold orderBy; omega⟩

instance orderByTrans : IsTrans JoinedRow orderBy :=
  ⟨fun a b c => by unfold orderBy; omega⟩

/-- Whether a joined row is excluded by downtime: the downtime test is true (not false,
not NULL). -/
def isDowntimeExcluded (reason : String) (now : Nat) (j : JoinedRow) : Bool :=
  decide (ifnull0 (downtimeCondition reason now j) ≠ 0)

/-- The joined rows that pass the where clause of the first statement, in scan order. -/
def eligibleFacts (reason : String) (now : Nat) (st : Store) : List JoinedRow :=
  (leftJoinDowntime st.database_instance st.database_instance_downtime).filter
    (whereClause reason now)

/-- The rows the select of the first statement of UpdateClusterAliases delivers, in
order: joined, filtered, sorted (rows with equal keys stay in scan order). -/
def selectSuggested (reason : String) (now : Nat) (st : Store) : List JoinedRow :=
  (eligibleFacts reason now st).insertionSort orderBy

/-- The select list of the first statement: suggested_cluster_alias, cluster_name, now(),
bound to columns (alias, cluster_name, last_registered). -/
def suggestedRow (now : Nat) (j : JoinedRow) : ClusterAliasRow :=
  ClusterAliasRow.mk j.inst.cluster_name j.inst.suggested_cluster_alias now

/-- The having clause of the second statement of UpdateClusterAliases, on one group:
`sum(suggested_cluster_alias = '') = count(*)`. -/
def havingAllEmpty (group : List DatabaseInstanceRow) : Bool :=
  decide ((group.map (fun r => if r.suggested_cluster_alias = "" then 1 else 0)).sum
    = group.length)

/-- The rows the select of the second statement of UpdateClusterAliases delivers: one
per cluster_name whose group passes the having clause. -/
def selectSelfAlias (st : Store) : List String :=
  (st.database_instance.map (fun r => r.cluster_name)).dedup.filter (fun c =>
    havingAllEmpty (st.database_instance.filter (fun r => decide (r.cluster_name = c))))

/-! ## Backend interface -/

/-- Modelled from the spec: `db.ExecOrchestrator` is absent from the source; the spec
describes it as `ExecuteWrite(sqlText, args) -> rowsAffected, error`, running a mutating
statement. The statement takes effect unless an error is raised, in which case the store
is as before. -/
def ExecOrchestrator (call : Call) (statement : Nat → Store → Except Error Store)
    (st : Store) : Store × Option Error :=
  match call.fault with
  | some err => (st, some err)
  | none =>
    match statement call.now st with
    | Except.ok st' => (st', none)
    | Except.error err => (st, some err)

/-- Modelled from the spec: `db.QueryOrchestrator` is absent from the source; the spec
describes it as `ExecuteQuery(sqlText, args, rowHandler)`, running a read query and
invoking the handler per result row. Every delivered row is handed to on_row, in order,
unless the backend raises an error. -/
def QueryOrchestrator {ρ σ : Type} (fault : Option Error) (rows : List ρ)
    (on_row : σ → ρ → σ) (init : σ) : σ × Option Error :=
  match fault with
  | some err => (init, some err)
  | none => (rows.foldl on_row init, none)

/-- Helper `log.Errore`: logs the error and returns it. -/
def Errore (err : Option Error) : Option Error := err

/-- Modelled from the spec: `ExecDBWriteFunc` is absent from the source; the spec
describes it as `ExecuteTransactionalWrite(fn) -> error`, running a closure under a
retried write transaction. It runs the write function and returns its error. -/
def ExecDBWriteFunc (writeFunc : Store → Store × Option Error) (st : Store) :
    Store × Option Error :=
  writeFunc st

/-! ## The functions of cluster_alias_dao.go -/

/-- Go `ReadClusterNameByAlias`. -/
def ReadClusterNameByAlias (st : Store) (fault : Option Error) (alias_ : String) :
    String × Option Error :=
  match QueryOrchestrator fault
      (st.cluster_alias.filter (fun m => decide (m.alias_ = alias_ ∨ m.cluster_name = alias_)))
      (fun (_ : String) m => m.cluster_name) "" with
  | (_, some err) => ("", some err)
  | (clusterName, none) =>
    if clusterName = "" then
      (clusterName, some ("No cluster found for alias " ++ alias_))
    else
      (clusterName, none)

/-- Go `ReadAliasByClusterName`. The named result alias is assigned by the row handler;
the return statement returns clusterName. -/
def ReadAliasByClusterName (st : Store) (fault : Option Error) (clusterName : String) :
    String × Option Error :=
  match QueryOrchestrator fault
      (st.cluster_alias.filter (fun m => decide (m.cluster_name = clusterName)))
      (fun (_ : String) m => m.alias_) clusterName with
  | (_alias, err) => (clusterName, err)

/-- Go `WriteClusterAlias`. -/
def WriteClusterAlias (st : Store) (call : Call) (clusterName alias_ : String) :
    Store × Option Error :=
  ExecDBWriteFunc (fun s =>
    match ExecOrchestrator call (fun now s =>
        Except.ok (Store.mk
          (replaceIntoClusterAlias s.cluster_alias (ClusterAliasRow.mk clusterName alias_ now))
          s.cluster_alias_override s.database_instance s.database_instance_downtime)) s with
    | (s', err) => (s', Errore err)) st

/-- Go `WriteClusterAliasManualOverride`. -/
def WriteClusterAliasManualOverride (st : Store) (call : Call) (clusterName alias_ : String) :
    Store × Option Error :=
  ExecDBWriteFunc (fun s =>
    match ExecOrchestrator call (fun _ s =>
        Except.ok (Store.mk s.cluster_alias
          (replaceIntoClusterAliasOverride s.cluster_alias_override
            (ClusterAliasOverrideRow.mk clusterName alias_))
          s.database_instance s.database_instance_downtime)) s with
    | (s', err) => (s', Errore err)) st

/-- First statement of `UpdateClusterAliases`: replace into cluster_alias the suggested
aliases, in the order of the select. -/
def replaceSuggestedAliases (reason : String) (now : Nat) (s : Store) : Except Error Store :=
  Except.ok (Store.mk
    (((selectSuggested reason now s).map (suggestedRow now)).foldl
      replaceIntoClusterAlias s.cluster_alias)
    s.cluster_alias_override s.database_instance s.database_instance_downtime)

/-- Second statement of `UpdateClusterAliases`: replace into cluster_alias a row
(cluster_name, cluster_name, now()) per selected group. -/
def replaceSelfAliases (now : Nat) (s : Store) : Except Error Store :=
  Except.ok (Store.mk
    (((selectSelfAlias s).map (fun c => ClusterAliasRow.mk c c now)).foldl
      replaceIntoClusterAlias s.cluster_alias)
    s.cluster_alias_override s.database_instance s.database_instance_downtime)

/-- Go `UpdateClusterAliases`; DowntimeLostInRecoveryMessage, a constant declared outside
the file, is an argument. -/
def UpdateClusterAliases (DowntimeLostInRecoveryMessage : String) (st : Store)
    (call1 call2 : Call) : Store × Option Error :=
  match ExecDBWriteFunc (fun s =>
      match ExecOrchestrator call1 (replaceSuggestedAliases DowntimeLostInRecoveryMessage) s with
      | (s', err) => (s', Errore err)) st with
  | (st1, some err) => (st1, some err)
  | (st1, none) =>
    match ExecDBWriteFunc (fun s =>
        match ExecOrchestrator call2 replaceSelfAliases s with
        | (s', err) => (s', Errore err)) st1 with
    | (st2, some err) => (st2, some err)
    | (st2, none) => (st2, none)

/-- Modelled from the spec: the schema is absent from the source; the spec makes identity
the primary key of both tables. Whether `update ... set cluster_name = ? where
cluster_name = ?` would leave two rows with one primary key: the key changes, some row is
changed, and the new key would be held by more than one row. -/
def primaryKeyConflict (newClusterName oldClusterName : String) (keys : List String) : Bool :=
  decide (newClusterName ≠ oldClusterName ∧ 0 < keys.count oldClusterName ∧
    1 < keys.count oldClusterName + keys.count newClusterName)

/-- First statement of `ReplaceAliasClusterName`: update cluster_alias. -/
def updateClusterAlias (newClusterName oldClusterName : String) (s : Store) :
    Except Error Store :=
  if primaryKeyConflict newClusterName oldClusterName
      (s.cluster_alias.map (fun r => r.cluster_name)) then
    Except.error (duplicateEntry newClusterName)
  else
    Except.ok (Store.mk (setClusterName newClusterName oldClusterName s.cluster_alias)
      s.cluster_alias_override s.database_instance s.database_instance_downtime)

/-- Second statement of `ReplaceAliasClusterName`: update cluster_alias_override. -/
def updateClusterAliasOverride (newClusterName oldClusterName : String) (s : Store) :
    Except Error Store :=
  if primaryKeyConflict newClusterName oldClusterName
      (s.cluster_alias_override.map (fun r => r.cluster_name)) then
    Except.error (duplicateEntry newClusterName)
  else
    Except.ok (Store.mk s.cluster_alias
      (setOverrideClusterName newClusterName oldClusterName s.cluster_alias_override)
      s.database_instance s.database_instance_downtime)

/-- Go `ReplaceAliasClusterName`. -/
def ReplaceAliasClusterName (st : Store) (call1 call2 : Call)
    (oldClusterName newClusterName : String) : Store × Option Error :=
  match ExecDBWriteFunc (fun s =>
      match ExecOrchestrator call1
          (fun _ => updateClusterAlias newClusterName oldClusterName) s with
      | (s', err) => (s', Errore err)) st with
  | (st1, err) =>
    match ExecDBWriteFunc (fun s =>
        match ExecOrchestrator call2
            (fun _ => updateClusterAliasOverride newClusterName oldClusterName) s with
        | (s', err) => (s', Errore err)) st1 with
    | (st2, some ferr) => (st2, some ferr)
    | (st2, none) => (st2, err)

/-! ## Lemmas on the table operations -/

theorem rowsOf_replaceIntoClusterAlias (t : List ClusterAliasRow) (r : ClusterAliasRow)
    (c : String) :
    rowsOf c (replaceIntoClusterAlias t r) = if r.cluster_name = c then [r] else rowsOf c t := by
  unfold rowsOf replaceIntoClusterAlias
  rw [List.filter_append, List.filter_filter]
  by_cases h : r.cluster_name = c
  · have h1 : List.filter (fun a => decide (a.cluster_name = c) &&
        decide (a.cluster_name ≠ r.cluster_name)) t = [] := by
      rw [List.filter_eq_nil_iff]
      intro a _
      simp only [Bool.and_eq_true, decide_eq_true_eq, not_and, ne_eq, not_not]
      intro ha
      rw [ha, h]
    rw [h1]
    simp [h]
  · have h1 : List.filter (fun a => decide (a.cluster_name = c) &&
        decide (a.cluster_name ≠ r.cluster_name)) t
        = List.filter (fun a => decide (a.cluster_name = c)) t := by
      apply List.filter_congr
      intro a _
      by_cases ha : a.cluster_name = c
      · have h2 : a.cluster_name ≠ r.cluster_name := fun e => h (e ▸ ha)
        simp only [decide_eq_true ha, decide_eq_true h2, Bool.and_self]
      · simp [ha]
    rw [h1]
    simp [h]

theorem rowsOf_foldl_replaceIntoClusterAlias (rows : List ClusterAliasRow) (c : String) :
    ∀ t : List ClusterAliasRow,
      rowsOf c (rows.foldl replaceIntoClusterAlias t)
        = ((rowsOf c rows).getLast?).elim (rowsOf c t) (fun r => [r]) := by
  induction rows with
  | nil => intro t; simp [rowsOf]
  | cons r rs ih =>
    intro t
    rw [List.foldl_cons, ih, rowsOf_replaceIntoClusterAlias]
    by_cases h : r.cluster_name = c
    · have hr : rowsOf c (r :: rs) = r :: rowsOf c rs := by simp [rowsOf, h]
      rw [hr, if_pos h]
      cases hrs : rowsOf c rs with
      | nil => simp
      | cons x xs =>
        rw [List.getLast?_cons_cons, List.getLast?_eq_getLast _ (List.cons_ne_nil x xs)]
        rfl
    · have hr : rowsOf c (r :: rs) = rowsOf c rs := by simp [rowsOf, h]
      rw [hr, if_neg h]

theorem foldl_last_cluster_name (rows : List ClusterAliasRow) :
    ∀ init : String,
      rows.foldl (fun (_ : String) m => m.cluster_name) init
        = (rows.getLast?).elim init (fun r => r.cluster_name) := by
  induction rows with
  | nil => intro init; rfl
  | cons r rs ih =>
    intro init
    rw [List.foldl_cons, ih]
    cases rs with
    | nil => rfl
    | cons x xs =>
      rw [List.getLast?_cons_cons, List.getLast?_eq_getLast _ (List.cons_ne_nil x xs)]
      rfl

/-! ## Directory reader -/

/-- C1: on the table holding the single row (clusterA, payments), a successful
ReadAliasByClusterName of clusterA returns clusterA, not the registered alias payments. -/
theorem ReadAliasByClusterName_ignores_registered_alias :
    ReadAliasByClusterName (Store.mk [⟨"clusterA", "payments", 5⟩] [] [] []) none "clusterA"
      = ("clusterA", none) := by
  decide

/-- C2: for every store and every identity I that has no cluster_alias row, a successful
ReadAliasByClusterName of I returns I itself with no error. -/
theorem ReadAliasByClusterName_no_row (st : Store) (I : String)
    (h : ∀ r ∈ st.cluster_alias, r.cluster_name ≠ I) :
    ReadAliasByClusterName st none I = (I, none) := by
  have hfilter : st.cluster_alias.filter (fun m => decide (m.cluster_name = I)) = [] := by
    rw [List.filter_eq_nil_iff]
    intro a ha
    simpa using h a ha
  simp [ReadAliasByClusterName, QueryOrchestrator, hfilter]

theorem ReadAliasByClusterName_no_row_witness :
    (∀ r ∈ (Store.mk [⟨"clusterA", "payments", 5⟩] [] [] []).cluster_alias,
        r.cluster_name ≠ "clusterB") ∧
      ReadAliasByClusterName (Store.mk [⟨"clusterA", "payments", 5⟩] [] [] []) none "clusterB"
        = ("clusterB", none) :=
  ⟨by decide, ReadAliasByClusterName_no_row _ "clusterB" (by decide)⟩

/-- C3 (as stated, refuted): on the table holding the single row with empty cluster_name
and alias payments, a row matches payments by alias, yet ReadClusterNameByAlias of
payments returns an error. -/
theorem ReadClusterNameByAlias_error_despite_match :
    ¬ ((ReadClusterNameByAlias (Store.mk [⟨"", "payments", 0⟩] [] [] []) none "payments").2 ≠ none
        ↔ ¬ ∃ r ∈ (Store.mk [⟨"", "payments", 0⟩] [] [] []).cluster_alias,
            r.alias_ = "payments" ∨ r.cluster_name = "payments") := by
  decide

/-- C3 (amended): for every store and every string A, a ReadClusterNameByAlias of A whose
query succeeds returns an error if and only if no cluster_alias row has alias = A or
cluster_name = A, or the last matching row the query delivers has an empty cluster_name;
when it returns no error, the value returned is the cluster_name of a row that matches A
by alias or by cluster_name (the last one delivered). -/
theorem ReadClusterNameByAlias_error_iff (st : Store) (A : String) :
    ((ReadClusterNameByAlias st none A).2 ≠ none ↔
        ((¬ ∃ r ∈ st.cluster_alias, r.alias_ = A ∨ r.cluster_name = A) ∨
          ∃ r, (st.cluster_alias.filter
              (fun m => decide (m.alias_ = A ∨ m.cluster_name = A))).getLast? = some r ∧
            r.cluster_name = "")) ∧
      ((ReadClusterNameByAlias st none A).2 = none →
        ∃ r ∈ st.cluster_alias, (r.alias_ = A ∨ r.cluster_name = A) ∧
          (st.cluster_alias.filter
              (fun m => decide (m.alias_ = A ∨ m.cluster_name = A))).getLast? = some r ∧
          (ReadClusterNameByAlias st none A).1 = r.cluster_name) := by
  have hnone : (¬ ∃ r ∈ st.cluster_alias, r.alias_ = A ∨ r.cluster_name = A) ↔
      st.cluster_alias.filter (fun m => decide (m.alias_ = A ∨ m.cluster_name = A)) = [] := by
    rw [List.filter_eq_nil_iff]
    simp
  rw [hnone]
  unfold ReadClusterNameByAlias QueryOrchestrator
  simp only [foldl_last_cluster_name]
  cases hm : st.cluster_alias.filter (fun m => decide (m.alias_ = A ∨ m.cluster_name = A)) with
  | nil => simp
  | cons x xs =>
    have hlast : (x :: xs).getLast? = some ((x :: xs).getLast (List.cons_ne_nil x xs)) :=
      List.getLast?_eq_getLast _ _
    have hmem : (x :: xs).getLast (List.cons_ne_nil x xs) ∈
        st.cluster_alias.filter (fun m => decide (m.alias_ = A ∨ m.cluster_name = A)) := by
      rw [hm]
      exact List.getLast_mem _
    rw [List.mem_filter] at hmem
    rw [hlast]
    simp only [Option.elim]
    by_cases he : ((x :: xs).getLast (List.cons_ne_nil x xs)).cluster_name = ""
    · simp [he]
    · simp only [he, if_false]
      refine ⟨by simp [he], fun _ => ?_⟩
      exact ⟨_, hmem.1, by simpa using hmem.2, rfl, rfl⟩

theorem ReadClusterNameByAlias_error_iff_witness :
    (ReadClusterNameByAlias (Store.mk [⟨"clusterA", "payments", 5⟩] [] [] []) none "payments").2
        = none ∧
      ∃ r ∈ (Store.mk [⟨"clusterA", "payments", 5⟩] [] [] []).cluster_alias,
        (r.alias_ = "payments" ∨ r.cluster_name = "payments") ∧
          ((Store.mk [⟨"clusterA", "payments", 5⟩] [] [] []).cluster_alias.filter
              (fun m => decide (m.alias_ = "payments" ∨ m.cluster_name = "payments"))).getLast?
            = some r ∧
          (ReadClusterNameByAlias (Store.mk [⟨"clusterA", "payments", 5⟩] [] [] []) none
            "payments").1 = r.cluster_name :=
  ⟨by decide,
    (ReadClusterNameByAlias_error_iff (Store.mk [⟨"clusterA", "payments", 5⟩] [] [] [])
      "payments").2 (by decide)⟩

/-! ## Directory writer -/

theorem filter_ne_replaceIntoClusterAlias (t : List ClusterAliasRow) (r : ClusterAliasRow) :
    (replaceIntoClusterAlias t r).filter (fun x => decide (x.cluster_name ≠ r.cluster_name))
      = t.filter (fun x => decide (x.cluster_name ≠ r.cluster_name)) := by
  unfold replaceIntoClusterAlias
  rw [List.filter_append, List.filter_filter]
  simp

theorem WriteClusterAlias_ok (st : Store) (now : Nat) (I a : String) :
    WriteClusterAlias st (Call.mk now none) I a
      = (Store.mk (replaceIntoClusterAlias st.cluster_alias (ClusterAliasRow.mk I a now))
          st.cluster_alias_override st.database_instance st.database_instance_downtime, none) := by
  rfl

/-- C10: for every store and every (identity, alias), two successful WriteClusterAlias
calls leave the same list of (cluster_name, alias) pairs in cluster_alias as one call;
after either, cluster_alias holds exactly one row for the identity and it carries the
alias; the rows of other identities and the table cluster_alias_override are as before. -/
theorem WriteClusterAlias_idempotent (st : Store) (now1 now2 : Nat) (I a : String) :
    (WriteClusterAlias st (Call.mk now1 none) I a).2 = none ∧
    (WriteClusterAlias (WriteClusterAlias st (Call.mk now1 none) I a).1
        (Call.mk now2 none) I a).2 = none ∧
    (WriteClusterAlias (WriteClusterAlias st (Call.mk now1 none) I a).1
        (Call.mk now2 none) I a).1.cluster_alias.map (fun r => (r.cluster_name, r.alias_))
      = (WriteClusterAlias st (Call.mk now1 none) I a).1.cluster_alias.map
          (fun r => (r.cluster_name, r.alias_)) ∧
    rowsOf I (WriteClusterAlias st (Call.mk now1 none) I a).1.cluster_alias
      = [ClusterAliasRow.mk I a now1] ∧
    rowsOf I (WriteClusterAlias (WriteClusterAlias st (Call.mk now1 none) I a).1
        (Call.mk now2 none) I a).1.cluster_alias = [ClusterAliasRow.mk I a now2] ∧
    (WriteClusterAlias st (Call.mk now1 none) I a).1.cluster_alias.filter
        (fun x => decide (x.cluster_name ≠ I))
      = st.cluster_alias.filter (fun x => decide (x.cluster_name ≠ I)) ∧
    (WriteClusterAlias (WriteClusterAlias st (Call.mk now1 none) I a).1
        (Call.mk now2 none) I a).1.cluster_alias.filter (fun x => decide (x.cluster_name ≠ I))
      = st.cluster_alias.filter (fun x => decide (x.cluster_name ≠ I)) ∧
    (WriteClusterAlias st (Call.mk now1 none) I a).1.cluster_alias_override
      = st.cluster_alias_override ∧
    (WriteClusterAlias (WriteClusterAlias st (Call.mk now1 none) I a).1
        (Call.mk now2 none) I a).1.cluster_alias_override = st.cluster_alias_override := by
  simp only [WriteClusterAlias_ok]
  have h1 := filter_ne_replaceIntoClusterAlias st.cluster_alias (ClusterAliasRow.mk I a now1)
  have h2 := filter_ne_replaceIntoClusterAlias
    (replaceIntoClusterAlias st.cluster_alias (ClusterAliasRow.mk I a now1))
    (ClusterAliasRow.mk I a now2)
  simp only at h1 h2
  refine ⟨trivial, trivial, ?_, ?_, ?_, h1, h2.trans h1, trivial, trivial⟩
  · show List.map _ (replaceIntoClusterAlias _ _) = List.map _ (replaceIntoClusterAlias _ _)
    unfold replaceIntoClusterAlias
    simp [List.filter_append, List.filter_filter]
  · rw [rowsOf_replaceIntoClusterAlias]
    simp
  · rw [rowsOf_replaceIntoClusterAlias]
    simp

/-! ## Rename -/

theorem ExecOrchestrator_none_iff (call : Call) (stmt : Nat → Store → Except Error Store)
    (st : Store) :
    (ExecOrchestrator call stmt st).2 = none ↔
      call.fault = none ∧ ∃ st', stmt call.now st = Except.ok st' := by
  unfold ExecOrchestrator
  cases hf : call.fault with
  | some e => simp
  | none =>
    cases hs : stmt call.now st with
    | ok s => simp
    | error e => simp

/-- C5: for every outcome of the two updates, ReplaceAliasClusterName runs the update of
cluster_alias_override on the store the update of cluster_alias left, also when that first
update failed; it returns the error of the second update when that update fails,
otherwise the error of the first update, and no error exactly when both succeed. -/
theorem ReplaceAliasClusterName_errors (st : Store) (call1 call2 : Call)
    (oldClusterName newClusterName : String) :
    (ReplaceAliasClusterName st call1 call2 oldClusterName newClusterName).1
      = (ExecOrchestrator call2
          (fun _ => updateClusterAliasOverride newClusterName oldClusterName)
          (ExecOrchestrator call1
            (fun _ => updateClusterAlias newClusterName oldClusterName) st).1).1 ∧
    (∀ ferr, (ExecOrchestrator call2
          (fun _ => updateClusterAliasOverride newClusterName oldClusterName)
          (ExecOrchestrator call1
            (fun _ => updateClusterAlias newClusterName oldClusterName) st).1).2 = some ferr →
        (ReplaceAliasClusterName st call1 call2 oldClusterName newClusterName).2 = some ferr) ∧
    ((ExecOrchestrator call2
          (fun _ => updateClusterAliasOverride newClusterName oldClusterName)
          (ExecOrchestrator call1
            (fun _ => updateClusterAlias newClusterName oldClusterName) st).1).2 = none →
        (ReplaceAliasClusterName st call1 call2 oldClusterName newClusterName).2
          = (ExecOrchestrator call1
              (fun _ => updateClusterAlias newClusterName oldClusterName) st).2) ∧
    ((ReplaceAliasClusterName st call1 call2 oldClusterName newClusterName).2 = none ↔
        (ExecOrchestrator call1
            (fun _ => updateClusterAlias newClusterName oldClusterName) st).2 = none ∧
        (ExecOrchestrator call2
          (fun _ => updateClusterAliasOverride newClusterName oldClusterName)
          (ExecOrchestrator call1
            (fun _ => updateClusterAlias newClusterName oldClusterName) st).1).2 = none) ∧
    (∀ err, call1.fault = some err → call2.fault = none →
        primaryKeyConflict newClusterName oldClusterName
          (st.cluster_alias_override.map (fun r => r.cluster_name)) = false →
        ReplaceAliasClusterName st call1 call2 oldClusterName newClusterName
          = (Store.mk st.cluster_alias
              (setOverrideClusterName newClusterName oldClusterName st.cluster_alias_override)
              st.database_instance st.database_instance_downtime, some err)) := by
  unfold ReplaceAliasClusterName ExecDBWriteFunc Errore
  refine ⟨?_, ?_, ?_, ?_, ?_⟩
  · cases h2 : (ExecOrchestrator call2
      (fun _ => updateClusterAliasOverride newClusterName oldClusterName)
      (ExecOrchestrator call1
        (fun _ => updateClusterAlias newClusterName oldClusterName) st).1).2 <;> simp [h2]
  · intro ferr h2
    simp [h2]
  · intro h2
    simp [h2]
  · cases h2 : (ExecOrchestrator call2
      (fun _ => updateClusterAliasOverride newClusterName oldClusterName)
      (ExecOrchestrator call1
        (fun _ => updateClusterAlias newClusterName oldClusterName) st).1).2 <;> simp [h2]
  · intro err h1 h2 hk
    simp [ExecOrchestrator, h1, h2, updateClusterAliasOverride, hk]

theorem ReplaceAliasClusterName_errors_witness :
    (Call.mk 7 (some "lock wait timeout")).fault = some "lock wait timeout" ∧
    (Call.mk 8 none).fault = none ∧
    ReplaceAliasClusterName
        (Store.mk [⟨"clusterA", "payments", 5⟩] [⟨"clusterA", "pinned"⟩] [] [])
        (Call.mk 7 (some "lock wait timeout")) (Call.mk 8 none) "clusterA" "clusterB"
      = (Store.mk [⟨"clusterA", "payments", 5⟩] [⟨"clusterB", "pinned"⟩] [] [],
          some "lock wait timeout") :=
  ⟨rfl, rfl,
    (ReplaceAliasClusterName_errors
      (Store.mk [⟨"clusterA", "payments", 5⟩] [⟨"clusterA", "pinned"⟩] [] [])
      (Call.mk 7 (some "lock wait timeout")) (Call.mk 8 none) "clusterA" "clusterB").2.2.2.2
      "lock wait timeout" rfl rfl (by decide)⟩

theorem ReplaceAliasClusterName_ok (st : Store) (call1 call2 : Call)
    (oldClusterName newClusterName : String)
    (hok : (ReplaceAliasClusterName st call1 call2 oldClusterName newClusterName).2 = none) :
    (ReplaceAliasClusterName st call1 call2 oldClusterName newClusterName).1
      = Store.mk (setClusterName newClusterName oldClusterName st.cluster_alias)
          (setOverrideClusterName newClusterName oldClusterName st.cluster_alias_override)
          st.database_instance st.database_instance_downtime := by
  cases hf1 : call1.fault <;> cases hf2 : call2.fault <;>
    cases hc1 : primaryKeyConflict newClusterName oldClusterName
      (st.cluster_alias.map (fun r => r.cluster_name)) <;>
    cases hc2 : primaryKeyConflict newClusterName oldClusterName
      (st.cluster_alias_override.map (fun r => r.cluster_name)) <;>
    simp [ReplaceAliasClusterName, ExecDBWriteFunc, Errore, ExecOrchestrator,
      updateClusterAlias, updateClusterAliasOverride, hf1, hf2, hc1, hc2] at hok ⊢

theorem rowsOf_setClusterName (newClusterName oldClusterName c : String)
    (h1 : c ≠ oldClusterName) (h2 : c ≠ newClusterName) (t : List ClusterAliasRow) :
    rowsOf c (setClusterName newClusterName oldClusterName t) = rowsOf c t := by
  unfold rowsOf setClusterName
  induction t with
  | nil => rfl
  | cons r rs ih =>
    rw [List.map_cons]
    by_cases hr : r.cluster_name = oldClusterName
    · have hc : ¬ r.cluster_name = c := fun e => h1 (e ▸ hr)
      simp only [hr, if_true, List.filter_cons, decide_eq_true_eq, Ne.symm h2, if_false,
        Ne.symm h1]
      exact ih
    · simp only [hr, if_false, List.filter_cons]
      rw [ih]

theorem overrideRowsOf_setOverrideClusterName (newClusterName oldClusterName c : String)
    (h1 : c ≠ oldClusterName) (h2 : c ≠ newClusterName) (t : List ClusterAliasOverrideRow) :
    overrideRowsOf c (setOverrideClusterName newClusterName oldClusterName t)
      = overrideRowsOf c t := by
  unfold overrideRowsOf setOverrideClusterName
  induction t with
  | nil => rfl
  | cons r rs ih =>
    rw [List.map_cons]
    by_cases hr : r.cluster_name = oldClusterName
    · have hc : ¬ r.cluster_name = c := fun e => h1 (e ▸ hr)
      simp only [hr, if_true, List.filter_cons, decide_eq_true_eq, Ne.symm h2, if_false,
        Ne.symm h1]
      exact ih
    · simp only [hr, if_false, List.filter_cons]
      rw [ih]

/-- C4 (as stated, refuted): renaming clusterA to clusterA succeeds on both tables and a
row of cluster_alias remains keyed by the old name clusterA. -/
theorem ReplaceAliasClusterName_same_name_keeps_row :
    (ReplaceAliasClusterName
        (Store.mk [⟨"clusterA", "payments", 5⟩] [⟨"clusterA", "pinned"⟩] [] [])
        (Call.mk 7 none) (Call.mk 8 none) "clusterA" "clusterA").2 = none ∧
    ¬ ∀ r ∈ (ReplaceAliasClusterName
        (Store.mk [⟨"clusterA", "payments", 5⟩] [⟨"clusterA", "pinned"⟩] [] [])
        (Call.mk 7 none) (Call.mk 8 none) "clusterA" "clusterA").1.cluster_alias,
      r.cluster_name ≠ "clusterA" := by
  decide

/-- C4 (amended): for every store and every pair of names old, new, after a
ReplaceAliasClusterName(old, new) in which both updates succeed: every row of either
table that was keyed by old is now keyed by new with its other columns unchanged; when
old differs from new, no row of either table remains keyed by old; the rows keyed by any
other name are unchanged, and rows that were not keyed by old are still present. -/
theorem ReplaceAliasClusterName_renames (st : Store) (call1 call2 : Call)
    (oldClusterName newClusterName : String)
    (hok : (ReplaceAliasClusterName st call1 call2 oldClusterName newClusterName).2 = none) :
    (∀ r ∈ st.cluster_alias, r.cluster_name = oldClusterName →
        ClusterAliasRow.mk newClusterName r.alias_ r.last_registered ∈
          (ReplaceAliasClusterName st call1 call2 oldClusterName
            newClusterName).1.cluster_alias) ∧
    (∀ r ∈ st.cluster_alias_override, r.cluster_name = oldClusterName →
        ClusterAliasOverrideRow.mk newClusterName r.alias_ ∈
          (ReplaceAliasClusterName st call1 call2 oldClusterName
            newClusterName).1.cluster_alias_override) ∧
    (oldClusterName ≠ newClusterName →
      (∀ r ∈ (ReplaceAliasClusterName st call1 call2 oldClusterName
          newClusterName).1.cluster_alias, r.cluster_name ≠ oldClusterName) ∧
      (∀ r ∈ (ReplaceAliasClusterName st call1 call2 oldClusterName
          newClusterName).1.cluster_alias_override, r.cluster_name ≠ oldClusterName)) ∧
    (∀ c, c ≠ oldClusterName → c ≠ newClusterName →
      rowsOf c (ReplaceAliasClusterName st call1 call2 oldClusterName
          newClusterName).1.cluster_alias = rowsOf c st.cluster_alias ∧
      overrideRowsOf c (ReplaceAliasClusterName st call1 call2 oldClusterName
          newClusterName).1.cluster_alias_override
        = overrideRowsOf c st.cluster_alias_override) ∧
    (∀ r ∈ st.cluster_alias, r.cluster_name ≠ oldClusterName →
        r ∈ (ReplaceAliasClusterName st call1 call2 oldClusterName
          newClusterName).1.cluster_alias) ∧
    (∀ r ∈ st.cluster_alias_override, r.cluster_name ≠ oldClusterName →
        r ∈ (ReplaceAliasClusterName st call1 call2 oldClusterName
          newClusterName).1.cluster_alias_override) := by
  rw [ReplaceAliasClusterName_ok st call1 call2 oldClusterName newClusterName hok]
  refine ⟨?_, ?_, ?_, ?_, ?_, ?_⟩
  · intro r hr hk
    simp only [setClusterName, List.mem_map]
    exact ⟨r, hr, by simp [hk]⟩
  · intro r hr hk
    simp only [setOverrideClusterName, List.mem_map]
    exact ⟨r, hr, by simp [hk]⟩
  · intro hne
    constructor
    · intro r hr
      simp only [setClusterName, List.mem_map] at hr
      obtain ⟨x, _, hx⟩ := hr
      by_cases hk : x.cluster_name = oldClusterName
      · rw [if_pos hk] at hx
        rw [← hx]
        exact fun e => hne e.symm
      · rw [if_neg hk] at hx
        rw [← hx]
        exact hk
    · intro r hr
      simp only [setOverrideClusterName, List.mem_map] at hr
      obtain ⟨x, _, hx⟩ := hr
      by_cases hk : x.cluster_name = oldClusterName
      · rw [if_pos hk] at hx
        rw [← hx]
        exact fun e => hne e.symm
      · rw [if_neg hk] at hx
        rw [← hx]
        exact hk
  · intro c h1 h2
    exact ⟨rowsOf_setClusterName _ _ c h1 h2 _,
      overrideRowsOf_setOverrideClusterName _ _ c h1 h2 _⟩
  · intro r hr hk
    simp only [setClusterName, List.mem_map]
    exact ⟨r, hr, by simp [hk]⟩
  · intro r hr hk
    simp only [setOverrideClusterName, List.mem_map]
    exact ⟨r, hr, by simp [hk]⟩

theorem ReplaceAliasClusterName_renames_witness :
    (ReplaceAliasClusterName
        (Store.mk [⟨"clusterA", "payments", 5⟩, ⟨"clusterC", "search", 6⟩]
          [⟨"clusterA", "pinned"⟩] [] [])
        (Call.mk 7 none) (Call.mk 8 none) "clusterA" "clusterB").2 = none ∧
    (∀ r ∈ (ReplaceAliasClusterName
        (Store.mk [⟨"clusterA", "payments", 5⟩, ⟨"clusterC", "search", 6⟩]
          [⟨"clusterA", "pinned"⟩] [] [])
        (Call.mk 7 none) (Call.mk 8 none) "clusterA" "clusterB").1.cluster_alias,
      r.cluster_name ≠ "clusterA") :=
  ⟨by decide,
    ((ReplaceAliasClusterName_renames
      (Store.mk [⟨"clusterA", "payments", 5⟩, ⟨"clusterC", "search", 6⟩]
        [⟨"clusterA", "pinned"⟩] [] [])
      (Call.mk 7 none) (Call.mk 8 none) "clusterA" "clusterB" (by decide)).2.2.1
        (by decide)).1⟩

/-! ## Synchronization -/

theorem getLast?_of_forall_eq {α : Type} (l : List α) (a : α) (hne : l ≠ [])
    (hall : ∀ x ∈ l, x = a) : l.getLast? = some a := by
  rw [List.getLast?_eq_getLast l hne]
  exact congrArg some (hall _ (List.getLast_mem hne))

theorem mem_selectSelfAlias (st : Store) (I : String) :
    I ∈ selectSelfAlias st ↔
      (∃ i ∈ st.database_instance, i.cluster_name = I) ∧
        ∀ i ∈ st.database_instance, i.cluster_name = I → i.suggested_cluster_alias = "" := by
  have hsum : ∀ g : List DatabaseInstanceRow,
      (g.map (fun r => if r.suggested_cluster_alias = "" then 1 else 0)).sum ≤ g.length ∧
      ((g.map (fun r => if r.suggested_cluster_alias = "" then 1 else 0)).sum = g.length ↔
        ∀ r ∈ g, r.suggested_cluster_alias = "") := by
    intro g
    induction g with
    | nil => simp
    | cons x xs ih =>
      by_cases hx : x.suggested_cluster_alias = ""
      · simp only [List.map_cons, hx, if_true, List.sum_cons, List.length_cons,
          List.mem_cons, forall_eq_or_imp, true_and]
        constructor
        · omega
        · rw [← ih.2]
          omega
      · simp only [List.map_cons, hx, if_false, List.sum_cons, List.length_cons,
          List.mem_cons, forall_eq_or_imp, false_and, iff_false]
        constructor
        · omega
        · omega
  unfold selectSelfAlias havingAllEmpty
  rw [List.mem_filter, List.mem_dedup, List.mem_map, decide_eq_true_eq, (hsum _).2]
  simp only [List.mem_filter, decide_eq_true_eq, and_imp]

theorem rowsOf_selfAlias (t : List ClusterAliasRow) (l : List String) (now : Nat)
    (I : String) :
    rowsOf I ((l.map (fun c => ClusterAliasRow.mk c c now)).foldl replaceIntoClusterAlias t)
      = if I ∈ l then [ClusterAliasRow.mk I I now] else rowsOf I t := by
  rw [rowsOf_foldl_replaceIntoClusterAlias]
  by_cases h : I ∈ l
  · rw [if_pos h]
    have hlast : (rowsOf I (l.map (fun c => ClusterAliasRow.mk c c now))).getLast?
        = some (ClusterAliasRow.mk I I now) := by
      apply getLast?_of_forall_eq
      · intro hnil
        have hmem : ClusterAliasRow.mk I I now ∈
            rowsOf I (l.map (fun c => ClusterAliasRow.mk c c now)) := by
          unfold rowsOf
          rw [List.mem_filter, List.mem_map]
          exact ⟨⟨I, h, rfl⟩, by simp⟩
        rw [hnil] at hmem
        exact absurd hmem (List.not_mem_nil _)
      · intro x hx
        unfold rowsOf at hx
        rw [List.mem_filter, List.mem_map] at hx
        obtain ⟨⟨c, _, hc⟩, hk⟩ := hx
        rw [← hc] at hk ⊢
        simp only [decide_eq_true_eq] at hk
        rw [hk]
    rw [hlast]
    rfl
  · rw [if_neg h]
    have hnil : rowsOf I (l.map (fun c => ClusterAliasRow.mk c c now)) = [] := by
      unfold rowsOf
      rw [List.filter_eq_nil_iff]
      intro x hx hk
      rw [List.mem_map] at hx
      obtain ⟨c, hcl, hc⟩ := hx
      rw [← hc] at hk
      simp only [decide_eq_true_eq] at hk
      exact h (hk ▸ hcl)
    rw [hnil]
    rfl

theorem rowsOf_suggested (t : List ClusterAliasRow) (l : List JoinedRow) (now : Nat)
    (I : String) :
    rowsOf I ((l.map (suggestedRow now)).foldl replaceIntoClusterAlias t)
      = ((factsOf I l).getLast?).elim (rowsOf I t) (fun w => [suggestedRow now w]) := by
  rw [rowsOf_foldl_replaceIntoClusterAlias]
  have hmap : rowsOf I (l.map (suggestedRow now)) = (factsOf I l).map (suggestedRow now) := by
    unfold rowsOf factsOf
    rw [List.filter_map]
    rfl
  rw [hmap, List.getLast?_map]
  cases (factsOf I l).getLast? <;> rfl

theorem last_fact_maximal (l : List JoinedRow) (I : String) (w : JoinedRow)
    (hs : l.Sorted orderBy) (hw : (factsOf I l).getLast? = some w) :
    w ∈ l ∧ w.inst.cluster_name = I ∧
      ∀ f ∈ l, f.inst.cluster_name = I → orderBy f w := by
  have hmem : w ∈ factsOf I l := List.mem_of_getLast?_eq_some hw
  unfold factsOf at hmem hw
  rw [List.mem_filter, decide_eq_true_eq] at hmem
  refine ⟨hmem.1, hmem.2, ?_⟩
  intro f hf hk
  obtain ⟨ys, hys⟩ := List.getLast?_eq_some_iff.mp hw
  have hpw : (ys ++ [w]).Pairwise orderBy := by
    rw [← hys]
    exact List.Pairwise.sublist (List.filter_sublist l) hs
  have hfm : f ∈ ys ++ [w] := by
    rw [← hys, List.mem_filter, decide_eq_true_eq]
    exact ⟨hf, hk⟩
  rw [List.mem_append, List.mem_singleton] at hfm
  rcases hfm with hfy | hfw
  · exact (List.pairwise_append.mp hpw).2.2 f hfy w (List.mem_singleton_self w)
  · rw [hfw]
    exact (orderByTotal.total w w).elim id id

theorem inst_mem_of_mem_leftJoinDowntime (instances : List DatabaseInstanceRow)
    (downtimes : List DatabaseInstanceDowntimeRow) (j : JoinedRow)
    (h : j ∈ leftJoinDowntime instances downtimes) : j.inst ∈ instances := by
  unfold leftJoinDowntime at h
  rw [List.mem_flatMap] at h
  obtain ⟨i, hi, hj⟩ := h
  split at hj
  · rw [List.mem_singleton] at hj
    rw [hj]
    exact hi
  · rw [List.mem_map] at hj
    obtain ⟨d, _, hd⟩ := hj
    rw [← hd]
    exact hi

theorem UpdateClusterAliases_outcomes (reason : String) (st : Store) (call1 call2 : Call) :
    (UpdateClusterAliases reason st call1 call2).1.cluster_alias = st.cluster_alias ∨
    (UpdateClusterAliases reason st call1 call2).1.cluster_alias
      = ((selectSuggested reason call1.now st).map (suggestedRow call1.now)).foldl
          replaceIntoClusterAlias st.cluster_alias ∨
    (UpdateClusterAliases reason st call1 call2).1.cluster_alias
      = ((selectSelfAlias st).map (fun c => ClusterAliasRow.mk c c call2.now)).foldl
          replaceIntoClusterAlias
          (((selectSuggested reason call1.now st).map (suggestedRow call1.now)).foldl
            replaceIntoClusterAlias st.cluster_alias) := by
  cases hf1 : call1.fault <;> cases hf2 : call2.fault <;>
    simp [UpdateClusterAliases, ExecDBWriteFunc, Errore, ExecOrchestrator,
      replaceSuggestedAliases, replaceSelfAliases, selectSelfAlias, hf1, hf2]

theorem UpdateClusterAliases_ok (reason : String) (st : Store) (call1 call2 : Call)
    (hok : (UpdateClusterAliases reason st call1 call2).2 = none) :
    (UpdateClusterAliases reason st call1 call2).1.cluster_alias
      = ((selectSelfAlias st).map (fun c => ClusterAliasRow.mk c c call2.now)).foldl
          replaceIntoClusterAlias
          (((selectSuggested reason call1.now st).map (suggestedRow call1.now)).foldl
            replaceIntoClusterAlias st.cluster_alias) := by
  cases hf1 : call1.fault <;> cases hf2 : call2.fault <;>
    simp [UpdateClusterAliases, ExecDBWriteFunc, Errore, ExecOrchestrator,
      replaceSuggestedAliases, replaceSelfAliases, selectSelfAlias, hf1, hf2] at hok ⊢

theorem UpdateClusterAliases_rowsOf (reason : String) (st : Store) (call1 call2 : Call)
    (I : String) (hok : (UpdateClusterAliases reason st call1 call2).2 = none) :
    rowsOf I (UpdateClusterAliases reason st call1 call2).1.cluster_alias
      = if I ∈ selectSelfAlias st then [ClusterAliasRow.mk I I call2.now]
        else ((factsOf I (selectSuggested reason call1.now st)).getLast?).elim
          (rowsOf I st.cluster_alias) (fun w => [suggestedRow call1.now w]) := by
  rw [UpdateClusterAliases_ok reason st call1 call2 hok, rowsOf_selfAlias, rowsOf_suggested]

theorem not_mem_selectSelfAlias_of_eligible (reason : String) (now : Nat) (st : Store)
    (j : JoinedRow) (hj : j ∈ eligibleFacts reason now st) :
    j.inst.cluster_name ∉ selectSelfAlias st := by
  unfold eligibleFacts at hj
  rw [List.mem_filter] at hj
  have hi := inst_mem_of_mem_leftJoinDowntime _ _ j hj.1
  have hne : j.inst.suggested_cluster_alias ≠ "" := by
    have h2 := hj.2
    unfold whereClause at h2
    rw [Bool.and_eq_true, decide_eq_true_eq] at h2
    exact h2.1
  intro hmem
  rw [mem_selectSelfAlias] at hmem
  exact hne (hmem.2 j.inst hi rfl)

theorem UpdateClusterAliases_winner (reason : String) (st : Store) (call1 call2 : Call)
    (I : String) (hok : (UpdateClusterAliases reason st call1 call2).2 = none)
    (helig : ∃ j ∈ eligibleFacts reason call1.now st, j.inst.cluster_name = I) :
    ∃ w, (factsOf I (selectSuggested reason call1.now st)).getLast? = some w ∧
      w ∈ eligibleFacts reason call1.now st ∧ w.inst.cluster_name = I ∧
      (∀ f ∈ eligibleFacts reason call1.now st, f.inst.cluster_name = I → orderBy f w) ∧
      rowsOf I (UpdateClusterAliases reason st call1 call2).1.cluster_alias
        = [ClusterAliasRow.mk I w.inst.suggested_cluster_alias call1.now] := by
  obtain ⟨j, hj, hjk⟩ := helig
  have hnot : I ∉ selectSelfAlias st := hjk ▸ not_mem_selectSelfAlias_of_eligible _ _ _ j hj
  have hjs : j ∈ factsOf I (selectSuggested reason call1.now st) := by
    unfold factsOf selectSuggested
    rw [List.mem_filter, List.mem_insertionSort, decide_eq_true_eq]
    exact ⟨hj, hjk⟩
  have hne : factsOf I (selectSuggested reason call1.now st) ≠ [] :=
    List.ne_nil_of_mem hjs
  have hlast := List.getLast?_eq_getLast _ hne
  have hsorted : (selectSuggested reason call1.now st).Sorted orderBy :=
    List.sorted_insertionSort orderBy _
  obtain ⟨hw1, hw2, hw3⟩ := last_fact_maximal _ I _ hsorted hlast
  refine ⟨_, hlast, ?_, hw2, ?_, ?_⟩
  · exact (List.mem_insertionSort orderBy).mp hw1
  · intro f hf hfk
    exact hw3 f ((List.mem_insertionSort orderBy).mpr hf) hfk
  · rw [UpdateClusterAliases_rowsOf reason st call1 call2 I hok, if_neg hnot, hlast]
    simp only [Option.elim, suggestedRow, hw2]

/-- C6: for every store and every identity I with at least one eligible fact (non-empty
suggested alias, not excluded by downtime), after a successful UpdateClusterAliases the
table cluster_alias holds exactly one row for I, and it carries the suggested alias of the
eligible fact w of I that the sorted select delivers last: every eligible fact of I sorts
no later than w under (last_checked <= last_seen asc, read_only desc, num_slave_hosts
asc). In particular, when the eligible facts of I are a stale-looking one and a fresh one,
the row carries the suggested alias of the fresh one; the second statement does not
overwrite it. -/
theorem UpdateClusterAliases_last_sorted_wins (reason : String) (st : Store)
    (call1 call2 : Call) (I : String)
    (hok : (UpdateClusterAliases reason st call1 call2).2 = none)
    (helig : ∃ j ∈ eligibleFacts reason call1.now st, j.inst.cluster_name = I) :
    (∃ w, (factsOf I (selectSuggested reason call1.now st)).getLast? = some w ∧
      w ∈ eligibleFacts reason call1.now st ∧ w.inst.cluster_name = I ∧
      (∀ f ∈ eligibleFacts reason call1.now st, f.inst.cluster_name = I → orderBy f w) ∧
      rowsOf I (UpdateClusterAliases reason st call1 call2).1.cluster_alias
        = [ClusterAliasRow.mk I w.inst.suggested_cluster_alias call1.now]) ∧
    (∀ stale fresh : JoinedRow,
      stale ∈ eligibleFacts reason call1.now st → fresh ∈ eligibleFacts reason call1.now st →
      stale.inst.cluster_name = I → fresh.inst.cluster_name = I →
      (∀ g ∈ eligibleFacts reason call1.now st, g.inst.cluster_name = I →
        g = stale ∨ g = fresh) →
      stale.checkedLeSeen = 0 → fresh.checkedLeSeen = 1 →
      rowsOf I (UpdateClusterAliases reason st call1 call2).1.cluster_alias
        = [ClusterAliasRow.mk I fresh.inst.suggested_cluster_alias call1.now]) := by
  obtain ⟨w, hw1, hw2, hw3, hw4, hw5⟩ :=
    UpdateClusterAliases_winner reason st call1 call2 I hok helig
  refine ⟨⟨w, hw1, hw2, hw3, hw4, hw5⟩, ?_⟩
  intro stale fresh _ hfresh _ hfk honly hs hf
  rcases honly w hw2 hw3 with hws | hwf
  · have hord := hw4 fresh hfresh hfk
    rw [hws] at hord
    unfold orderBy at hord
    omega
  · rw [hw5, hwf]

theorem UpdateClusterAliases_last_sorted_wins_witness :
    (UpdateClusterAliases "lost-in-recovery"
        (Store.mk [⟨"clusterA", "legacy", 1⟩] []
          [⟨"db1", 3306, "clusterA", "payments", 1, 0, some 20, some 20⟩,
            ⟨"db2", 3306, "clusterA", "billing", 0, 5, some 30, some 10⟩] [])
        (Call.mk 40 none) (Call.mk 41 none)).2 = none ∧
    rowsOf "clusterA"
        (UpdateClusterAliases "lost-in-recovery"
          (Store.mk [⟨"clusterA", "legacy", 1⟩] []
            [⟨"db1", 3306, "clusterA", "payments", 1, 0, some 20, some 20⟩,
              ⟨"db2", 3306, "clusterA", "billing", 0, 5, some 30, some 10⟩] [])
          (Call.mk 40 none) (Call.mk 41 none)).1.cluster_alias
      = [ClusterAliasRow.mk "clusterA" "payments" 40] :=
  ⟨by decide, (UpdateClusterAliases_last_sorted_wins "lost-in-recovery"
    (Store.mk [⟨"clusterA", "legacy", 1⟩] []
      [⟨"db1", 3306, "clusterA", "payments", 1, 0, some 20, some 20⟩,
        ⟨"db2", 3306, "clusterA", "billing", 0, 5, some 30, some 10⟩] [])
    (Call.mk 40 none) (Call.mk 41 none) "clusterA" (by decide) (by decide)).2
    ⟨⟨"db2", 3306, "clusterA", "billing", 0, 5, some 30, some 10⟩, none⟩
    ⟨⟨"db1", 3306, "clusterA", "payments", 1, 0, some 20, some 20⟩, none⟩
    (by decide) (by decide) rfl rfl (by decide) (by decide) (by decide)⟩

/-- C7 (as stated, refuted): clusterA has two eligible facts that agree on the freshness
flag, a read-only one suggesting payments and a writable one suggesting billing; after a
successful UpdateClusterAliases the row of clusterA carries billing, the suggested alias
of the writable fact, not payments. -/
theorem UpdateClusterAliases_read_only_loses :
    (UpdateClusterAliases "lost-in-recovery"
        (Store.mk [] []
          [⟨"db1", 3306, "clusterA", "payments", 1, 0, some 20, some 20⟩,
            ⟨"db2", 3306, "clusterA", "billing", 0, 0, some 20, some 20⟩] [])
        (Call.mk 40 none) (Call.mk 41 none)).2 = none ∧
    rowsOf "clusterA"
        (UpdateClusterAliases "lost-in-recovery"
          (Store.mk [] []
            [⟨"db1", 3306, "clusterA", "payments", 1, 0, some 20, some 20⟩,
              ⟨"db2", 3306, "clusterA", "billing", 0, 0, some 20, some 20⟩] [])
          (Call.mk 40 none) (Call.mk 41 none)).1.cluster_alias
      = [ClusterAliasRow.mk "clusterA" "billing" 40] ∧
    ¬ ∀ r ∈ (UpdateClusterAliases "lost-in-recovery"
          (Store.mk [] []
            [⟨"db1", 3306, "clusterA", "payments", 1, 0, some 20, some 20⟩,
              ⟨"db2", 3306, "clusterA", "billing", 0, 0, some 20, some 20⟩] [])
          (Call.mk 40 none) (Call.mk 41 none)).1.cluster_alias,
        r.cluster_name = "clusterA" → r.alias_ = "payments" := by
  decide

/-- C7 (amended): for every identity I whose only eligible facts are two facts that agree
on the freshness flag (last_checked <= last_seen), one read-only and one writable, after
a successful UpdateClusterAliases the row of cluster_alias for I carries the suggested
alias of the writable fact: under read_only desc the writable fact is delivered last and
the last replace wins. -/
theorem UpdateClusterAliases_writable_wins (reason : String) (st : Store)
    (call1 call2 : Call) (I : String) (readOnly writable : JoinedRow)
    (hok : (UpdateClusterAliases reason st call1 call2).2 = none)
    (hro : readOnly ∈ eligibleFacts reason call1.now st)
    (hrw : writable ∈ eligibleFacts reason call1.now st)
    (hrok : readOnly.inst.cluster_name = I) (hrwk : writable.inst.cluster_name = I)
    (honly : ∀ g ∈ eligibleFacts reason call1.now st, g.inst.cluster_name = I →
      g = readOnly ∨ g = writable)
    (hfresh : readOnly.checkedLeSeen = writable.checkedLeSeen)
    (hro1 : 0 < readOnly.inst.read_only) (hrw0 : writable.inst.read_only = 0) :
    rowsOf I (UpdateClusterAliases reason st call1 call2).1.cluster_alias
      = [ClusterAliasRow.mk I writable.inst.suggested_cluster_alias call1.now] := by
  obtain ⟨w, _, hw2, hw3, hw4, hw5⟩ :=
    UpdateClusterAliases_winner reason st call1 call2 I hok ⟨readOnly, hro, hrok⟩
  rcases honly w hw2 hw3 with hwr | hww
  · have hord := hw4 writable hrw hrwk
    rw [hwr] at hord
    unfold orderBy at hord
    omega
  · rw [hw5, hww]

theorem UpdateClusterAliases_writable_wins_witness :
    (UpdateClusterAliases "lost-in-recovery"
        (Store.mk [] []
          [⟨"db2", 3306, "clusterA", "billing", 0, 0, some 20, some 20⟩,
            ⟨"db1", 3306, "clusterA", "payments", 1, 0, some 20, some 20⟩] [])
        (Call.mk 40 none) (Call.mk 41 none)).2 = none ∧
    rowsOf "clusterA"
        (UpdateClusterAliases "lost-in-recovery"
          (Store.mk [] []
            [⟨"db2", 3306, "clusterA", "billing", 0, 0, some 20, some 20⟩,
              ⟨"db1", 3306, "clusterA", "payments", 1, 0, some 20, some 20⟩] [])
          (Call.mk 40 none) (Call.mk 41 none)).1.cluster_alias
      = [ClusterAliasRow.mk "clusterA" "billing" 40] :=
  ⟨by decide, UpdateClusterAliases_writable_wins "lost-in-recovery"
    (Store.mk [] []
      [⟨"db2", 3306, "clusterA", "billing", 0, 0, some 20, some 20⟩,
        ⟨"db1", 3306, "clusterA", "payments", 1, 0, some 20, some 20⟩] [])
    (Call.mk 40 none) (Call.mk 41 none) "clusterA"
    ⟨⟨"db1", 3306, "clusterA", "payments", 1, 0, some 20, some 20⟩, none⟩
    ⟨⟨"db2", 3306, "clusterA", "billing", 0, 0, some 20, some 20⟩, none⟩
    (by decide) (by decide) (by decide) rfl rfl (by decide) (by decide) (by decide) rfl⟩

/-- C8: for every store and every identity I that appears in database_instance and whose
every instance row has an empty suggested alias, after a successful UpdateClusterAliases
the table cluster_alias holds exactly one row for I and its alias is I, whatever alias I
had before. -/
theorem UpdateClusterAliases_self_alias (reason : String) (st : Store)
    (call1 call2 : Call) (I : String)
    (hok : (UpdateClusterAliases reason st call1 call2).2 = none)
    (hex : ∃ i ∈ st.database_instance, i.cluster_name = I)
    (hall : ∀ i ∈ st.database_instance, i.cluster_name = I →
      i.suggested_cluster_alias = "") :
    rowsOf I (UpdateClusterAliases reason st call1 call2).1.cluster_alias
      = [ClusterAliasRow.mk I I call2.now] := by
  rw [UpdateClusterAliases_rowsOf reason st call1 call2 I hok,
    if_pos ((mem_selectSelfAlias st I).mpr ⟨hex, hall⟩)]

theorem UpdateClusterAliases_self_alias_witness :
    (UpdateClusterAliases "lost-in-recovery"
        (Store.mk [⟨"clusterB", "legacy", 1⟩] []
          [⟨"db1", 3306, "clusterA", "payments", 1, 0, some 20, some 20⟩,
            ⟨"db3", 3306, "clusterB", "", 0, 1, some 20, some 20⟩,
            ⟨"db4", 3306, "clusterB", "", 1, 0, some 20, some 20⟩] [])
        (Call.mk 40 none) (Call.mk 41 none)).2 = none ∧
    rowsOf "clusterB"
        (UpdateClusterAliases "lost-in-recovery"
          (Store.mk [⟨"clusterB", "legacy", 1⟩] []
            [⟨"db1", 3306, "clusterA", "payments", 1, 0, some 20, some 20⟩,
              ⟨"db3", 3306, "clusterB", "", 0, 1, some 20, some 20⟩,
              ⟨"db4", 3306, "clusterB", "", 1, 0, some 20, some 20⟩] [])
          (Call.mk 40 none) (Call.mk 41 none)).1.cluster_alias
      = [ClusterAliasRow.mk "clusterB" "clusterB" 41] :=
  ⟨by decide, UpdateClusterAliases_self_alias "lost-in-recovery"
    (Store.mk [⟨"clusterB", "legacy", 1⟩] []
      [⟨"db1", 3306, "clusterA", "payments", 1, 0, some 20, some 20⟩,
        ⟨"db3", 3306, "clusterB", "", 0, 1, some 20, some 20⟩,
        ⟨"db4", 3306, "clusterB", "", 1, 0, some 20, some 20⟩] [])
    (Call.mk 40 none) (Call.mk 41 none) "clusterB" (by decide) (by decide) (by decide)⟩

/-- C9: for every store and every identity I that has at least one instance row with a
non-empty suggested alias and all of whose joined rows with a non-empty suggested alias
are excluded by downtime, UpdateClusterAliases (whatever its outcome) leaves the rows of
cluster_alias for I exactly as they were: neither a suggested alias nor a self-alias is
written for I. -/
theorem UpdateClusterAliases_downtime_excluded (reason : String) (st : Store)
    (call1 call2 : Call) (I : String)
    (hex : ∃ i ∈ st.database_instance, i.cluster_name = I ∧ i.suggested_cluster_alias ≠ "")
    (hall : ∀ j ∈ leftJoinDowntime st.database_instance st.database_instance_downtime,
      j.inst.cluster_name = I → j.inst.suggested_cluster_alias ≠ "" →
        isDowntimeExcluded reason call1.now j = true) :
    rowsOf I (UpdateClusterAliases reason st call1 call2).1.cluster_alias
      = rowsOf I st.cluster_alias := by
  have hnot : I ∉ selectSelfAlias st := by
    intro hmem
    rw [mem_selectSelfAlias] at hmem
    obtain ⟨i, hi, hik, hne⟩ := hex
    exact hne (hmem.2 i hi hik)
  have hnil : factsOf I (selectSuggested reason call1.now st) = [] := by
    unfold factsOf selectSuggested eligibleFacts
    rw [List.filter_eq_nil_iff]
    intro j hj hjk
    rw [List.mem_insertionSort, List.mem_filter] at hj
    rw [decide_eq_true_eq] at hjk
    have hw := hj.2
    unfold whereClause at hw
    rw [Bool.and_eq_true, decide_eq_true_eq, decide_eq_true_eq] at hw
    have hx := hall j hj.1 hjk hw.1
    unfold isDowntimeExcluded at hx
    rw [decide_eq_true_eq] at hx
    exact hx hw.2
  have h1 : rowsOf I (((selectSuggested reason call1.now st).map
      (suggestedRow call1.now)).foldl replaceIntoClusterAlias st.cluster_alias)
      = rowsOf I st.cluster_alias := by
    rw [rowsOf_suggested, hnil]
    rfl
  rcases UpdateClusterAliases_outcomes reason st call1 call2 with h | h | h
  · rw [h]
  · rw [h, h1]
  · rw [h, rowsOf_selfAlias, if_neg hnot, h1]

theorem UpdateClusterAliases_downtime_excluded_witness :
    rowsOf "clusterA"
        (UpdateClusterAliases "lost-in-recovery"
          (Store.mk [⟨"clusterA", "legacy", 1⟩] []
            [⟨"db1", 3306, "clusterA", "payments", 0, 2, some 20, some 20⟩,
              ⟨"db2", 3306, "clusterA", "", 1, 0, some 20, some 20⟩]
            [⟨"db1", 3306, some 1, some 100, some "lost-in-recovery"⟩])
          (Call.mk 40 none) (Call.mk 41 none)).1.cluster_alias
      = [ClusterAliasRow.mk "clusterA" "legacy" 1] :=
  UpdateClusterAliases_downtime_excluded "lost-in-recovery"
    (Store.mk [⟨"clusterA", "legacy", 1⟩] []
      [⟨"db1", 3306, "clusterA", "payments", 0, 2, some 20, some 20⟩,
        ⟨"db2", 3306, "clusterA", "", 1, 0, some 20, some 20⟩]
      [⟨"db1", 3306, some 1, some 100, some "lost-in-recovery"⟩])
    (Call.mk 40 none) (Call.mk 41 none) "clusterA" (by decide) (by decide)

end Inst
